import Mathlib

/-!
Shallow embedding of the Team Alchemy rule engine: trait profiles, the
archetype classifier, the Jungian/MBTI mapper, the Freudian defense
analyzer, collective archetype aggregation, case-study similarity and
team diversity scoring.  Python floats are modelled as rationals, Python
dicts as insertion-ordered association lists, and raising code as
Except-returning functions.
-/

namespace TeamAlchemy

/-- Stable descending sort by a rational key, modelling Python's
sorted(..., key=k, reverse=True), which keeps the original relative
order of elements with equal keys. -/
def sortDescBy {α : Type} (key : α → ℚ) (l : List α) : List α :=
  l.insertionSort (fun a b => key b ≤ key a)

/-! ## Trait profiles (core/archetypes/traits.py) -/

/-- A trait profile: Python dict from trait name to float score,
modelled as an association list whose earliest binding wins. -/
abbrev TraitProfile := List (String × ℚ)

/-- Dict assignment: overwrite the binding when the key is present,
otherwise append a new binding. -/
def setScore : TraitProfile → String → ℚ → TraitProfile
  | [], name, v => [(name, v)]
  | (k, w) :: rest, name, v =>
      if k = name then (name, v) :: rest else (k, w) :: setScore rest name v

/-- TraitProfile.get_score: first binding for the trait name, if any. -/
def get_score : TraitProfile → String → Option ℚ
  | [], _ => none
  | (k, v) :: rest, name => if k = name then some v else get_score rest name

/-- TraitProfile.add_score: raises ValueError when the score is outside
[0, 100], otherwise stores the score under the trait name. -/
def add_score (p : TraitProfile) (name : String) (score : ℚ) :
    Except String TraitProfile :=
  if score < 0 ∨ score > 100 then
    Except.error "Trait score must be between 0 and 100"
  else
    Except.ok (setScore p name score)

/-- TraitProfile.get_all_scores returns a copy of the score dict. -/
def get_all_scores (p : TraitProfile) : List (String × ℚ) := p

/-! ## Archetype classifier (core/archetypes/classifier_logic.py) -/

/-- Core archetype types (core/archetypes/definitions.py). -/
inductive ArchetypeType where
  | LEADER
  | INNOVATOR
  | HARMONIZER
  | ANALYST
  | IMPLEMENTER
  | VISIONARY
  | COLLABORATOR
  | SPECIALIST
deriving DecidableEq, Repr, Fintype

/-- Result of archetype classification (ClassificationResult fields). -/
structure ClassificationResult where
  primary_archetype : ArchetypeType
  secondary_archetype : Option ArchetypeType
  confidence : ℚ
  trait_scores : List (String × ℚ)
deriving DecidableEq, Repr

/-- ClassificationResult construction: __post_init__ raises ValueError
when confidence is outside [0, 1]. -/
def mkClassificationResult (primary : ArchetypeType)
    (secondary : Option ArchetypeType) (confidence : ℚ)
    (trait_scores : List (String × ℚ)) : Except String ClassificationResult :=
  if confidence < 0 ∨ confidence > 1 then
    Except.error "Confidence must be between 0 and 1"
  else
    Except.ok ⟨primary, secondary, confidence, trait_scores⟩

/-- Pattern for the LEADER archetype from _initialize_patterns. -/
def leader_pattern : List (String × ℚ) :=
  [("Extraversion", 80), ("Decisiveness", 85), ("Confidence", 90)]

/-- Pattern for the ANALYST archetype from _initialize_patterns. -/
def analyst_pattern : List (String × ℚ) :=
  [("Analytical Thinking", 90), ("Detail Orientation", 85), ("Logical Reasoning", 88)]

/-- The classifier's pattern table, in dict insertion order. -/
def archetype_patterns : List (ArchetypeType × List (String × ℚ)) :=
  [(ArchetypeType.LEADER, leader_pattern),
   (ArchetypeType.ANALYST, analyst_pattern)]

/-- ArchetypeClassifier._calculate_pattern_match: accumulate the total
absolute difference and the count over pattern traits present in the
profile, then return max(0, 100 - average difference); 0 when the
pattern is empty or no pattern trait is present. -/
def calculate_pattern_match (profile : TraitProfile)
    (pattern : List (String × ℚ)) : ℚ :=
  if pattern.isEmpty then 0
  else
    let tc := pattern.foldl
      (fun (acc : ℚ × ℕ) te =>
        match get_score profile te.1 with
        | some actual => (acc.1 + |te.2 - actual|, acc.2 + 1)
        | none => acc)
      ((0 : ℚ), (0 : ℕ))
    if tc.2 = 0 then 0 else max 0 (100 - tc.1 / (tc.2 : ℚ))

/-- ArchetypeClassifier._calculate_archetype_scores: a match score for
each archetype in the pattern table, in table order. -/
def calculate_archetype_scores (profile : TraitProfile) :
    List (ArchetypeType × ℚ) :=
  archetype_patterns.map (fun ap => (ap.1, calculate_pattern_match profile ap.2))

/-- ArchetypeClassifier.classify: sort archetype scores descending,
take the top entry as primary, the next (if any) as secondary, and
confidence = top score / 100; indexing an empty score list would raise. -/
def classify (profile : TraitProfile) : Except String ClassificationResult :=
  match sortDescBy Prod.snd (calculate_archetype_scores profile) with
  | [] => Except.error "list index out of range"
  | top :: rest =>
      mkClassificationResult top.1 (rest.head?.map Prod.fst) (top.2 / 100)
        (get_all_scores profile)

/-- The list of absolute differences between a pattern's expected values
and the profile's scores, for the pattern traits present in the profile.
Stated from the spec's description of the matching formula. -/
def presentDiffs (profile : TraitProfile) (pattern : List (String × ℚ)) :
    List ℚ :=
  pattern.filterMap (fun te => (get_score profile te.1).map (fun a => |te.2 - a|))

/-- Match score as the spec words it: max(0, 100 minus the mean absolute
difference over the pattern traits present in the profile), with 0 when
no pattern trait is present. -/
def matchScoreSpec (profile : TraitProfile) (pattern : List (String × ℚ)) : ℚ :=
  let ds := presentDiffs profile pattern
  if ds = [] then 0 else max 0 (100 - ds.sum / (ds.length : ℚ))

/-- First-match lookup in an association list, modelling Python
dict.get on a dict whose keys are unique. -/
def alookup {α β : Type} [DecidableEq α] : List (α × β) → α → Option β
  | [], _ => none
  | (k, v) :: rest, a => if k = a then some v else alookup rest a

/-- The classifier's match score of a profile against the pattern
stored for an archetype (empty pattern when the archetype has none). -/
def scoreAgainst (profile : TraitProfile) (a : ArchetypeType) : ℚ :=
  calculate_pattern_match profile ((alookup archetype_patterns a).getD [])

/-! ## Jungian/MBTI mapper (core/archetypes/jungian_mapper.py) -/

/-- Jungian cognitive functions. -/
inductive JungianFunction where
  | INTROVERTED_THINKING
  | EXTRAVERTED_THINKING
  | INTROVERTED_FEELING
  | EXTRAVERTED_FEELING
  | INTROVERTED_SENSING
  | EXTRAVERTED_SENSING
  | INTROVERTED_INTUITION
  | EXTRAVERTED_INTUITION
deriving DecidableEq, Repr, Fintype

/-- Myers-Briggs Type Indicator types. -/
inductive MBTIType where
  | INTJ
  | INTP
  | ENTJ
  | ENTP
  | INFJ
  | INFP
  | ENFJ
  | ENFP
  | ISTJ
  | ISFJ
  | ESTJ
  | ESFJ
  | ISTP
  | ISFP
  | ESTP
  | ESFP
deriving DecidableEq, Repr, Fintype

/-- The string value of each MBTI enum member. -/
def MBTIType.value : MBTIType → String
  | .INTJ => "INTJ"
  | .INTP => "INTP"
  | .ENTJ => "ENTJ"
  | .ENTP => "ENTP"
  | .INFJ => "INFJ"
  | .INFP => "INFP"
  | .ENFJ => "ENFJ"
  | .ENFP => "ENFP"
  | .ISTJ => "ISTJ"
  | .ISFJ => "ISFJ"
  | .ESTJ => "ESTJ"
  | .ESFJ => "ESFJ"
  | .ISTP => "ISTP"
  | .ISFP => "ISFP"
  | .ESTP => "ESTP"
  | .ESFP => "ESFP"

/-- A Jungian psychological profile. -/
structure JungianProfile where
  mbti_type : MBTIType
  dominant_function : JungianFunction
  auxiliary_function : JungianFunction
  tertiary_function : JungianFunction
  inferior_function : JungianFunction
deriving DecidableEq, Repr

/-- One entry of the MBTI type characteristic mapping table. -/
structure TypeMapping where
  function_stack : List JungianFunction
  archetype_affinity : List String
  strengths : List String
  shadow : String
deriving DecidableEq, Repr

/-- JungianMapper._initialize_mappings: the static table per MBTI type,
in dict insertion order. -/
def type_mappings : List (MBTIType × TypeMapping) :=
  [(MBTIType.INTJ,
    ⟨[JungianFunction.INTROVERTED_INTUITION, JungianFunction.EXTRAVERTED_THINKING,
      JungianFunction.INTROVERTED_FEELING, JungianFunction.EXTRAVERTED_SENSING],
     ["VISIONARY", "ANALYST"],
     ["Strategic planning", "Systems thinking", "Independence"],
     "May neglect emotional considerations"⟩),
   (MBTIType.INTP,
    ⟨[JungianFunction.INTROVERTED_THINKING, JungianFunction.EXTRAVERTED_INTUITION,
      JungianFunction.INTROVERTED_SENSING, JungianFunction.EXTRAVERTED_FEELING],
     ["ANALYST", "INNOVATOR"],
     ["Logical analysis", "Theoretical thinking", "Problem solving"],
     "May struggle with emotional expression"⟩),
   (MBTIType.ENTJ,
    ⟨[JungianFunction.EXTRAVERTED_THINKING, JungianFunction.INTROVERTED_INTUITION,
      JungianFunction.EXTRAVERTED_SENSING, JungianFunction.INTROVERTED_FEELING],
     ["LEADER", "VISIONARY"],
     ["Leadership", "Strategic execution", "Decisiveness"],
     "May be overly critical or dominating"⟩),
   (MBTIType.ENTP,
    ⟨[JungianFunction.EXTRAVERTED_INTUITION, JungianFunction.INTROVERTED_THINKING,
      JungianFunction.EXTRAVERTED_FEELING, JungianFunction.INTROVERTED_SENSING],
     ["INNOVATOR", "CHALLENGER"],
     ["Innovation", "Debate", "Quick thinking"],
     "May lack follow-through on projects"⟩),
   (MBTIType.INFJ,
    ⟨[JungianFunction.INTROVERTED_INTUITION, JungianFunction.EXTRAVERTED_FEELING,
      JungianFunction.INTROVERTED_THINKING, JungianFunction.EXTRAVERTED_SENSING],
     ["COUNSELOR", "VISIONARY"],
     ["Insight", "Empathy", "Vision for people"],
     "May become overly idealistic"⟩),
   (MBTIType.INFP,
    ⟨[JungianFunction.INTROVERTED_FEELING, JungianFunction.EXTRAVERTED_INTUITION,
      JungianFunction.INTROVERTED_SENSING, JungianFunction.EXTRAVERTED_THINKING],
     ["HEALER", "IDEALIST"],
     ["Authenticity", "Values-driven", "Creativity"],
     "May be overly sensitive to criticism"⟩),
   (MBTIType.ENFJ,
    ⟨[JungianFunction.EXTRAVERTED_FEELING, JungianFunction.INTROVERTED_INTUITION,
      JungianFunction.EXTRAVERTED_SENSING, JungianFunction.INTROVERTED_THINKING],
     ["HARMONIZER", "LEADER"],
     ["Inspiring others", "Empathy", "Communication"],
     "May neglect own needs for others"⟩),
   (MBTIType.ENFP,
    ⟨[JungianFunction.EXTRAVERTED_INTUITION, JungianFunction.INTROVERTED_FEELING,
      JungianFunction.EXTRAVERTED_THINKING, JungianFunction.INTROVERTED_SENSING],
     ["INNOVATOR", "HARMONIZER"],
     ["Creativity", "Enthusiasm", "Understanding people"],
     "May struggle with follow-through"⟩),
   (MBTIType.ISTJ,
    ⟨[JungianFunction.INTROVERTED_SENSING, JungianFunction.EXTRAVERTED_THINKING,
      JungianFunction.INTROVERTED_FEELING, JungianFunction.EXTRAVERTED_INTUITION],
     ["GUARDIAN", "ORGANIZER"],
     ["Reliability", "Detail-oriented", "Practical"],
     "May resist change or new ideas"⟩),
   (MBTIType.ISFJ,
    ⟨[JungianFunction.INTROVERTED_SENSING, JungianFunction.EXTRAVERTED_FEELING,
      JungianFunction.INTROVERTED_THINKING, JungianFunction.EXTRAVERTED_INTUITION],
     ["PROTECTOR", "SUPPORTER"],
     ["Supportive", "Detail-oriented", "Loyal"],
     "May struggle with setting boundaries"⟩),
   (MBTIType.ESTJ,
    ⟨[JungianFunction.EXTRAVERTED_THINKING, JungianFunction.INTROVERTED_SENSING,
      JungianFunction.EXTRAVERTED_INTUITION, JungianFunction.INTROVERTED_FEELING],
     ["LEADER", "ORGANIZER"],
     ["Organization", "Efficiency", "Leadership"],
     "May be inflexible or overly controlling"⟩),
   (MBTIType.ESFJ,
    ⟨[JungianFunction.EXTRAVERTED_FEELING, JungianFunction.INTROVERTED_SENSING,
      JungianFunction.EXTRAVERTED_INTUITION, JungianFunction.INTROVERTED_THINKING],
     ["HARMONIZER", "SUPPORTER"],
     ["Supportive", "Social harmony", "Organized"],
     "May be overly concerned with others opinions"⟩),
   (MBTIType.ISTP,
    ⟨[JungianFunction.INTROVERTED_THINKING, JungianFunction.EXTRAVERTED_SENSING,
      JungianFunction.INTROVERTED_INTUITION, JungianFunction.EXTRAVERTED_FEELING],
     ["CRAFTSMAN", "ANALYST"],
     ["Practical problem-solving", "Technical skill", "Adaptability"],
     "May struggle with long-term planning"⟩),
   (MBTIType.ISFP,
    ⟨[JungianFunction.INTROVERTED_FEELING, JungianFunction.EXTRAVERTED_SENSING,
      JungianFunction.INTROVERTED_INTUITION, JungianFunction.EXTRAVERTED_THINKING],
     ["ARTIST", "HARMONIZER"],
     ["Artistic", "Present-focused", "Empathetic"],
     "May avoid confrontation"⟩),
   (MBTIType.ESTP,
    ⟨[JungianFunction.EXTRAVERTED_SENSING, JungianFunction.INTROVERTED_THINKING,
      JungianFunction.EXTRAVERTED_FEELING, JungianFunction.INTROVERTED_INTUITION],
     ["ENTREPRENEUR", "CHALLENGER"],
     ["Action-oriented", "Adaptable", "Practical"],
     "May act impulsively without planning"⟩),
   (MBTIType.ESFP,
    ⟨[JungianFunction.EXTRAVERTED_SENSING, JungianFunction.INTROVERTED_FEELING,
      JungianFunction.EXTRAVERTED_THINKING, JungianFunction.INTROVERTED_INTUITION],
     ["ENTERTAINER", "HARMONIZER"],
     ["Enthusiasm", "People skills", "Spontaneity"],
     "May struggle with long-term focus"⟩)]

/-- JungianMapper.get_jungian_profile: look the type up in the static
table; None when absent, otherwise the 4-function stack read off in
dominant, auxiliary, tertiary, inferior order. -/
def get_jungian_profile (t : MBTIType) : Option JungianProfile :=
  match alookup type_mappings t with
  | none => none
  | some m =>
      match m.function_stack with
      | f1 :: f2 :: f3 :: f4 :: _ => some ⟨t, f1, f2, f3, f4⟩
      | _ => none

/-- The 16 canonical MBTI code strings and their enum members; a code
outside this table has no corresponding table key, modelling a
dict.get miss for an unrecognized code. -/
def mbti_code_table : List (String × MBTIType) :=
  [("INTJ", MBTIType.INTJ), ("INTP", MBTIType.INTP), ("ENTJ", MBTIType.ENTJ),
   ("ENTP", MBTIType.ENTP), ("INFJ", MBTIType.INFJ), ("INFP", MBTIType.INFP),
   ("ENFJ", MBTIType.ENFJ), ("ENFP", MBTIType.ENFP), ("ISTJ", MBTIType.ISTJ),
   ("ISFJ", MBTIType.ISFJ), ("ESTJ", MBTIType.ESTJ), ("ESFJ", MBTIType.ESFJ),
   ("ISTP", MBTIType.ISTP), ("ISFP", MBTIType.ISFP), ("ESTP", MBTIType.ESTP),
   ("ESFP", MBTIType.ESFP)]

/-- Parse an MBTI code string into the enum, None when unrecognized. -/
def mbtiOfString (code : String) : Option MBTIType :=
  alookup mbti_code_table code

/-- get_jungian_profile applied to a raw MBTI code string: an
unrecognized code misses every key of the static table and yields
None. -/
def get_jungian_profile_by_code (code : String) : Option JungianProfile :=
  (mbtiOfString code).bind get_jungian_profile

/-- The dict returned by assess_type_compatibility in the known-types
branch. -/
structure CompatibilityAnalysis where
  compatible : Bool
  type1 : String
  type2 : String
  complementary_functions : Bool
  compatibility_score : ℕ
deriving DecidableEq, Repr

/-- Result of assess_type_compatibility: either the unknown-types dict
or the full analysis dict. -/
inductive CompatResult where
  | unknownTypes
  | analysis (a : CompatibilityAnalysis)
deriving DecidableEq, Repr

/-- JungianMapper.assess_type_compatibility: complementary when the
auxiliary function of one profile equals the dominant function of the
other; score 75 when complementary, else 50; the result also records
the two type codes in argument order. -/
def assess_type_compatibility (t1 t2 : MBTIType) : CompatResult :=
  match get_jungian_profile t1, get_jungian_profile t2 with
  | some p1, some p2 =>
      let complementary : Bool :=
        decide (p1.auxiliary_function = p2.dominant_function) ||
        decide (p2.auxiliary_function = p1.dominant_function)
      CompatResult.analysis
        ⟨complementary, t1.value, t2.value, complementary,
         if complementary then 75 else 50⟩
  | _, _ => CompatResult.unknownTypes

/-- The compatible flag and compatibility score of an assessment (the
unknown-types branch, which is unreachable for enum inputs, is read as
incompatible with score 0). -/
def compat_verdict (t1 t2 : MBTIType) : Bool × ℕ :=
  match assess_type_compatibility t1 t2 with
  | CompatResult.analysis a => (a.compatible, a.compatibility_score)
  | CompatResult.unknownTypes => (false, 0)

/-- The auxiliary function of a type per the static table. -/
def aux_of (t : MBTIType) : Option JungianFunction :=
  (get_jungian_profile t).map JungianProfile.auxiliary_function

/-- The dominant function of a type per the static table. -/
def dom_of (t : MBTIType) : Option JungianFunction :=
  (get_jungian_profile t).map JungianProfile.dominant_function

/-! ## Freudian defense analyzer (core/psychology/freudian.py) -/

/-- Freudian defense mechanisms. -/
inductive DefenseMechanism where
  | REPRESSION
  | DENIAL
  | PROJECTION
  | DISPLACEMENT
  | RATIONALIZATION
  | REACTION_FORMATION
  | SUBLIMATION
  | REGRESSION
  | INTELLECTUALIZATION
  | HUMOR
deriving DecidableEq, Repr, Fintype

/-- Profile of a defense mechanism in use. -/
structure DefenseProfile where
  mechanism : DefenseMechanism
  frequency : ℚ
  adaptiveness : ℚ
  contexts : List String
deriving DecidableEq, Repr

/-- An opaque Python value as it occurs in the profile and response
dicts of this code base: an int, a float, a string or a list of
strings. -/
inductive PyVal where
  | int (n : ℤ)
  | rat (q : ℚ)
  | str (s : String)
  | strs (l : List String)
deriving DecidableEq, Repr

/-- The stress_responses argument: a Python dict of response data. -/
abbrev StressResponses := List (String × PyVal)

/-- Python's case-insensitive containment test
ind.lower() in b.lower(): the lowered needle is a contiguous
substring of the lowered haystack. -/
def strContains (hay needle : String) : Bool :=
  decide ((needle.toList.map Char.toLower) <:+: (hay.toList.map Char.toLower))

/-- FreudianAnalyzer._load_indicators: behavioral indicator phrases per
mechanism, in dict insertion order. -/
def mechanism_indicators : List (DefenseMechanism × List String) :=
  [(DefenseMechanism.DENIAL,
    ["refuses to acknowledge", "ignores reality", "dismisses evidence"]),
   (DefenseMechanism.PROJECTION,
    ["attributes own feelings to others", "accuses others of own faults",
     "externalizes blame"]),
   (DefenseMechanism.RATIONALIZATION,
    ["justifies behavior", "creates logical explanations", "excuses actions"]),
   (DefenseMechanism.SUBLIMATION,
    ["channels energy productively", "transforms impulses creatively",
     "redirects to socially acceptable"])]

/-- The analyzer's fixed set of mature, adaptive mechanisms. -/
def adaptive_mechanisms : List DefenseMechanism :=
  [DefenseMechanism.SUBLIMATION, DefenseMechanism.HUMOR,
   DefenseMechanism.INTELLECTUALIZATION]

/-- FreudianAnalyzer._assess_adaptiveness: 0.8 for mature mechanisms,
0.3 for the primitive pair denial/projection, 0.5 otherwise; the
observed behaviors argument is not consulted. -/
def assess_adaptiveness (m : DefenseMechanism) (behaviors : List String) : ℚ :=
  if m ∈ adaptive_mechanisms then 8/10
  else if m = DefenseMechanism.DENIAL ∨ m = DefenseMechanism.PROJECTION then 3/10
  else 1/2

/-- One iteration of the identify_defenses loop: the behaviors matching
a mechanism's indicators and, when any match, the resulting profile
with frequency min(1, matches/5) and the top 3 matching behaviors as
contexts. -/
def mkDefenseProfile (mi : DefenseMechanism × List String)
    (behaviors : List String) : Option DefenseProfile :=
  let matching := behaviors.filter (fun b => mi.2.any (fun ind => strContains b ind))
  if matching.isEmpty then none
  else some ⟨mi.1, min 1 ((matching.length : ℚ) / 5),
    assess_adaptiveness mi.1 matching, matching.take 3⟩

/-- FreudianAnalyzer.identify_defenses: build a profile per mechanism
with matching behaviors, then sort descending by frequency; the
stress_responses argument is never read. -/
def identify_defenses (behaviors : List String)
    (stress_responses : StressResponses) : List DefenseProfile :=
  sortDescBy (fun p => p.frequency)
    (mechanism_indicators.filterMap (fun mi => mkDefenseProfile mi behaviors))

/-- The behaviors that match the indicator phrases stored for a
mechanism (no matches for a mechanism absent from the table). -/
def matching_behaviors (m : DefenseMechanism) (behaviors : List String) :
    List String :=
  behaviors.filter
    (fun b => ((alookup mechanism_indicators m).getD []).any
      (fun ind => strContains b ind))

/-! ## Insertion-ordered counting dicts -/

/-- Python dict counting idiom d[k] = d.get(k, 0) + 1: increment the
binding in place, or append a fresh binding of 1. -/
def bump {α : Type} [DecidableEq α] : List (α × ℕ) → α → List (α × ℕ)
  | [], a => [(a, 1)]
  | (k, c) :: rest, a =>
      if k = a then (k, c + 1) :: rest else (k, c) :: bump rest a

/-- Count every element of a list into an insertion-ordered dict. -/
def countFold {α : Type} [DecidableEq α] (l : List α) (acc : List (α × ℕ)) :
    List (α × ℕ) :=
  l.foldl bump acc

/-- The count stored for a key, 0 when absent. -/
def lookupCount {α : Type} [DecidableEq α] (m : List (α × ℕ)) (a : α) : ℕ :=
  (alookup m a).getD 0

/-! ## Team diversity scoring (cli/main.py analyze_team) -/

/-- The MBTI distribution dict built over the team members' MBTI type
strings, in first-seen order. -/
def mbti_distribution (members : List String) : List (String × ℕ) :=
  countFold members []

/-- diversity_score = number of distinct MBTI types / team size, 0 for
an empty team. -/
def diversity_score (members : List String) : ℚ :=
  if members.isEmpty then 0
  else ((mbti_distribution members).length : ℚ) / (members.length : ℚ)

/-- The balance label if/elif cascade of analyze_team. -/
def balance_label (d : ℚ) : String :=
  if d > 4/5 then "Highly Balanced"
  else if d > 3/5 then "Balanced"
  else if d > 2/5 then "Moderately Balanced"
  else "Homogeneous"

/-! ## Jungian archetypes and collective patterns
(core/psychology/jungian.py) -/

/-- Jungian archetypes. -/
inductive Archetype where
  | SELF
  | SHADOW
  | ANIMA
  | ANIMUS
  | PERSONA
  | WISE_OLD_MAN
  | GREAT_MOTHER
  | HERO
  | TRICKSTER
deriving DecidableEq, Repr, Fintype

/-- The string value of each archetype enum member. -/
def Archetype.value : Archetype → String
  | .SELF => "self"
  | .SHADOW => "shadow"
  | .ANIMA => "anima"
  | .ANIMUS => "animus"
  | .PERSONA => "persona"
  | .WISE_OLD_MAN => "wise_old_man"
  | .GREAT_MOTHER => "great_mother"
  | .HERO => "hero"
  | .TRICKSTER => "trickster"

/-- An archetypal pattern in behavior or personality. -/
structure ArchetypalPattern where
  archetype : Archetype
  strength : ℚ
  manifestations : List String
  integration_level : ℚ
deriving DecidableEq, Repr

/-- ArchetypalPattern.is_dominant: strength strictly above 0.7. -/
def ArchetypalPattern.is_dominant (p : ArchetypalPattern) : Bool :=
  decide (p.strength > 7/10)

/-- The archetype count dict of assess_collective_unconscious_patterns:
every dominant pattern occurrence across every member's pattern list
bumps its archetype's count. -/
def archetypeCounts (group : List (List ArchetypalPattern)) :
    List (Archetype × ℕ) :=
  group.foldl
    (fun acc patterns =>
      patterns.foldl
        (fun acc2 p => if p.is_dominant then bump acc2 p.archetype else acc2)
        acc)
    []

/-- Python max(items, key=value) over dict items: the first pair whose
count is maximal, None on an empty dict. -/
def maxByCount {α : Type} : List (α × ℕ) → Option (α × ℕ)
  | [] => none
  | x :: xs => some (xs.foldl (fun best y => if y.2 > best.2 then y else best) x)

/-- The dict returned by assess_collective_unconscious_patterns. -/
structure CollectiveAnalysis where
  collective_archetypes : List (Archetype × ℚ)
  archetype_diversity : ℕ
  group_size : ℕ
  dominant_pattern : Option String
deriving DecidableEq, Repr

/-- assess_collective_unconscious_patterns: archetypes whose dominant
count exceeds 30 percent of the group size, the number of counted
archetypes, the group size, and the archetype value string with the
highest raw count (None when nothing was counted). -/
def assess_collective_unconscious_patterns
    (group : List (List ArchetypalPattern)) : CollectiveAnalysis :=
  let counts := archetypeCounts group
  let total := group.length
  ⟨(counts.filter
      (fun ac => decide (((ac.2 : ℚ) / (total : ℚ)) > 3/10))).map
      (fun ac => (ac.1, (ac.2 : ℚ) / (total : ℚ))),
   counts.length,
   total,
   (maxByCount counts).map (fun x => Archetype.value x.1)⟩

/-- Number of dominant pattern occurrences of an archetype across all
members' pattern lists: this is the quantity the code counts. -/
def dominantOccurrences (group : List (List ArchetypalPattern))
    (a : Archetype) : ℕ :=
  ((group.flatten.filter (fun p => p.is_dominant)).map
    (fun p => p.archetype)).countP (fun x => decide (x = a))

/-- Number of individuals having the archetype as dominant, following
the claim's wording (for comparison with what the code counts). -/
def claimIndividualCount (group : List (List ArchetypalPattern))
    (a : Archetype) : ℕ :=
  (group.filter
    (fun ps => ps.any (fun p => p.is_dominant && decide (p.archetype = a)))).length

/-- Concrete dominant HERO pattern used as a counterexample input. -/
def heroPattern : ArchetypalPattern := ⟨Archetype.HERO, 4/5, [], 3/5⟩

/-- Counterexample group: one member with two dominant HERO patterns
and three members with none. -/
def c8Group : List (List ArchetypalPattern) :=
  [[heroPattern, heroPattern], [], [], []]

/-! ## Case study mapper (core/psychology/case_study_mapper.py) -/

/-- A psychological case study record. -/
structure CaseStudy where
  id : String
  title : String
  subject_profile : List (String × PyVal)
  interventions : List String
  outcomes : List (String × ℚ)
  psychological_framework : String
  created_at : ℕ × ℕ × ℕ
deriving DecidableEq, Repr

/-- The static case study database seeded by _load_case_studies, in
insertion order. -/
def case_database : List CaseStudy :=
  [⟨"CS001", "Team Transformation through Archetype Awareness",
    [("team_size", PyVal.int 8),
     ("primary_issues", PyVal.strs ["communication", "conflict"]),
     ("archetypes", PyVal.strs ["leader", "harmonizer", "analyst"])],
    ["Archetype identification", "Team composition analysis",
     "Communication workshops"],
    [("effectiveness_increase", 35/100), ("satisfaction_increase", 40/100),
     ("conflict_reduction", 50/100)],
    "Jungian", (2023, 1, 1)⟩,
   ⟨"CS002", "Defense Mechanism Integration in High-Stress Environment",
    [("team_size", PyVal.int 5),
     ("primary_issues", PyVal.strs ["stress", "burnout"]),
     ("defense_mechanisms", PyVal.strs ["denial", "rationalization"])],
    ["Defense mechanism awareness training", "Stress management workshops",
     "Individual counseling"],
    [("stress_reduction", 45/100), ("burnout_reduction", 38/100),
     ("coping_improvement", 52/100)],
    "Freudian", (2023, 2, 15)⟩,
   ⟨"CS003", "Shadow Work in Leadership Development",
    [("team_size", PyVal.int 3),
     ("primary_issues", PyVal.strs ["leadership", "authenticity"]),
     ("archetypes", PyVal.strs ["leader", "shadow"])],
    ["Shadow integration exercises", "Leadership coaching",
     "Reflective journaling"],
    [("leadership_effectiveness", 48/100), ("authenticity_increase", 55/100),
     ("team_trust", 42/100)],
    "Jungian", (2023, 3, 20)⟩,
   ⟨"CS004", "MBTI-Based Team Composition Optimization",
    [("team_size", PyVal.int 10),
     ("primary_issues", PyVal.strs ["collaboration", "efficiency"]),
     ("mbti_types", PyVal.strs ["INTJ", "ENFP", "ISTJ", "ESFJ"])],
    ["MBTI assessment and profiling", "Function stack analysis",
     "Role alignment based on cognitive functions"],
    [("efficiency_increase", 40/100), ("collaboration_improvement", 47/100),
     ("satisfaction_increase", 43/100)],
    "Jungian", (2023, 4, 10)⟩,
   ⟨"CS005", "Conflict Resolution through Archetype Understanding",
    [("team_size", PyVal.int 6),
     ("primary_issues", PyVal.strs ["conflict", "miscommunication"]),
     ("archetypes", PyVal.strs ["challenger", "harmonizer", "analyst"])],
    ["Archetype-based communication training", "Conflict mediation sessions",
     "Team building exercises"],
    [("conflict_reduction", 58/100), ("communication_improvement", 51/100),
     ("team_cohesion", 45/100)],
    "Jungian", (2023, 5, 5)⟩,
   ⟨"CS006", "Ego Strength Development in New Managers",
    [("team_size", PyVal.int 4),
     ("primary_issues", PyVal.strs ["decision_making", "confidence"]),
     ("experience_level", PyVal.str "new_managers")],
    ["Ego strength assessment", "Decision-making frameworks",
     "Leadership mentoring"],
    [("decision_quality", 44/100), ("confidence_increase", 50/100),
     ("team_performance", 38/100)],
    "Freudian", (2023, 6, 18)⟩]

/-- CaseStudyMapper._calculate_similarity: over the distinct keys both
profile dicts share, the fraction whose values compare equal; 0.0 when
the profiles share no keys. -/
def calculate_similarity (p1 p2 : List (String × PyVal)) : ℚ :=
  let common := ((p1.map Prod.fst).dedup).filter (fun k => (alookup p2 k).isSome)
  if common.isEmpty then 0
  else ((common.countP
    (fun k => decide (alookup p1 k = alookup p2 k))) : ℚ) / (common.length : ℚ)

/-- Python list slicing xs[:n]: the first n elements when n is
non-negative, everything but the last -n elements when n is
negative. -/
def pyTake {α : Type} (n : ℤ) (xs : List α) : List α :=
  if 0 ≤ n then xs.take n.toNat else xs.take (xs.length - (-n).toNat)

/-- CaseStudyMapper.find_similar_cases: score every stored case by its
similarity to the query profile, sort descending by score, and slice
the top limit cases. -/
def find_similar_cases (profile : List (String × PyVal)) (limit : ℤ) :
    List CaseStudy :=
  (pyTake limit
    (sortDescBy Prod.fst
      (case_database.map
        (fun c => (calculate_similarity profile c.subject_profile, c))))).map
    Prod.snd

/-! ## Theorems -/

theorem sortDescBy_pairwise {α : Type} (key : α → ℚ) (l : List α) :
    (sortDescBy key l).Pairwise (fun a b => key b ≤ key a) := by
  haveI : IsTotal α (fun a b : α => key b ≤ key a) :=
    ⟨fun a b => le_total (key b) (key a)⟩
  haveI : IsTrans α (fun a b : α => key b ≤ key a) :=
    ⟨fun a b c h1 h2 => le_trans h2 h1⟩
  exact List.sorted_insertionSort _ l

theorem sortDescBy_perm {α : Type} (key : α → ℚ) (l : List α) :
    (sortDescBy key l).Perm l :=
  List.perm_insertionSort _ l

theorem mem_sortDescBy {α : Type} {key : α → ℚ} {l : List α} {a : α} :
    a ∈ sortDescBy key l ↔ a ∈ l :=
  (sortDescBy_perm key l).mem_iff

theorem get_score_setScore (p : TraitProfile) (name : String) (v : ℚ) :
    get_score (setScore p name v) name = some v := by
  induction p with
  | nil => simp [setScore, get_score]
  | cons hd tl ih =>
      obtain ⟨k, w⟩ := hd
      by_cases hk : k = name
      · simp [setScore, hk, get_score]
      · simp [setScore, hk, get_score, ih]

theorem pattern_match_foldl_eq (profile : TraitProfile)
    (pattern : List (String × ℚ)) :
    ∀ acc : ℚ × ℕ,
      pattern.foldl
        (fun (acc : ℚ × ℕ) te =>
          match get_score profile te.1 with
          | some actual => (acc.1 + |te.2 - actual|, acc.2 + 1)
          | none => acc) acc
      = (acc.1 + (presentDiffs profile pattern).sum,
         acc.2 + (presentDiffs profile pattern).length) := by
  induction pattern with
  | nil => intro acc; simp [presentDiffs]
  | cons hd tl ih =>
      intro acc
      cases hsc : get_score profile hd.1 with
      | none => simp [presentDiffs, List.filterMap_cons, hsc, ih]
      | some actual =>
          simp only [List.foldl_cons, hsc]
          rw [ih]
          simp [presentDiffs, List.filterMap_cons, hsc]
          ring_nf
          constructor
          · ring
          · omega

theorem calculate_pattern_match_eq (profile : TraitProfile)
    (pattern : List (String × ℚ)) :
    calculate_pattern_match profile pattern =
      if pattern.isEmpty then 0
      else if (presentDiffs profile pattern).length = 0 then 0
      else max 0 (100 - (presentDiffs profile pattern).sum /
        ((presentDiffs profile pattern).length : ℚ)) := by
  simp only [calculate_pattern_match, pattern_match_foldl_eq, zero_add]

theorem calculate_pattern_match_eq_spec (profile : TraitProfile)
    (pattern : List (String × ℚ)) (hpat : pattern ≠ []) :
    calculate_pattern_match profile pattern = matchScoreSpec profile pattern := by
  rw [calculate_pattern_match_eq]
  simp only [matchScoreSpec, List.isEmpty_iff, hpat, if_false,
    List.length_eq_zero]

theorem presentDiffs_nonneg (profile : TraitProfile)
    (pattern : List (String × ℚ)) :
    ∀ d ∈ presentDiffs profile pattern, 0 ≤ d := by
  intro d hd
  rcases List.mem_filterMap.mp hd with ⟨te, _, hmap⟩
  rcases hsc : get_score profile te.1 with _ | a
  · rw [hsc] at hmap; simp at hmap
  · rw [hsc] at hmap
    simp only [Option.map_some', Option.some.injEq] at hmap
    rw [← hmap]
    exact abs_nonneg _

theorem calculate_pattern_match_nonneg (profile : TraitProfile)
    (pattern : List (String × ℚ)) :
    0 ≤ calculate_pattern_match profile pattern := by
  rw [calculate_pattern_match_eq]
  split
  · exact le_refl 0
  · split
    · exact le_refl 0
    · exact le_max_left 0 _

theorem calculate_pattern_match_le_100 (profile : TraitProfile)
    (pattern : List (String × ℚ)) :
    calculate_pattern_match profile pattern ≤ 100 := by
  rw [calculate_pattern_match_eq]
  split
  · norm_num
  · split
    · norm_num
    · have hsum : 0 ≤ (presentDiffs profile pattern).sum :=
        List.sum_nonneg (presentDiffs_nonneg profile pattern)
      have hlen : (0 : ℚ) ≤ ((presentDiffs profile pattern).length : ℚ) := by
        positivity
      have hdiv : 0 ≤ (presentDiffs profile pattern).sum /
          ((presentDiffs profile pattern).length : ℚ) :=
        div_nonneg hsum hlen
      rw [max_le_iff]
      constructor
      · norm_num
      · linarith

theorem sortDescBy_pair {α : Type} (key : α → ℚ) (x y : α) :
    sortDescBy key [x, y] = if key y ≤ key x then [x, y] else [y, x] := by
  simp only [sortDescBy, List.insertionSort, List.orderedInsert]

/-- C1: classify always succeeds with confidence in [0,1] (so the
ClassificationResult construction never raises), and whenever a
secondary archetype exists its match score is at most the primary
archetype's match score. -/
theorem C1_classify_confidence_and_order (profile : TraitProfile) :
    ∃ r, classify profile = Except.ok r ∧
      0 ≤ r.confidence ∧ r.confidence ≤ 1 ∧
      ∀ s, r.secondary_archetype = some s →
        scoreAgainst profile s ≤ scoreAgainst profile r.primary_archetype := by
  have h1non := calculate_pattern_match_nonneg profile leader_pattern
  have h1le := calculate_pattern_match_le_100 profile leader_pattern
  have h2non := calculate_pattern_match_nonneg profile analyst_pattern
  have h2le := calculate_pattern_match_le_100 profile analyst_pattern
  have hscores : calculate_archetype_scores profile =
      [(ArchetypeType.LEADER, calculate_pattern_match profile leader_pattern),
       (ArchetypeType.ANALYST, calculate_pattern_match profile analyst_pattern)] := by
    simp [calculate_archetype_scores, archetype_patterns]
  have hsL : scoreAgainst profile ArchetypeType.LEADER =
      calculate_pattern_match profile leader_pattern := by
    simp [scoreAgainst, alookup, archetype_patterns]
  have hsA : scoreAgainst profile ArchetypeType.ANALYST =
      calculate_pattern_match profile analyst_pattern := by
    simp [scoreAgainst, alookup, archetype_patterns]
  by_cases h : calculate_pattern_match profile analyst_pattern ≤
      calculate_pattern_match profile leader_pattern
  · refine ⟨⟨ArchetypeType.LEADER, some ArchetypeType.ANALYST,
      calculate_pattern_match profile leader_pattern / 100, profile⟩, ?_, ?_, ?_, ?_⟩
    · rw [classify, hscores, sortDescBy_pair]
      simp only [if_pos h, List.head?, Option.map_some']
      rw [mkClassificationResult, if_neg]
      · rfl
      · push_neg
        constructor
        · positivity
        · rw [div_le_one (by norm_num)]; exact h1le
    · simp only []; positivity
    · simp only []
      rw [div_le_one (by norm_num)]; exact h1le
    · intro s hs
      simp only [Option.some.injEq] at hs
      rw [← hs, hsA, hsL]
      simpa using h
  · push_neg at h
    refine ⟨⟨ArchetypeType.ANALYST, some ArchetypeType.LEADER,
      calculate_pattern_match profile analyst_pattern / 100, profile⟩, ?_, ?_, ?_, ?_⟩
    · rw [classify, hscores, sortDescBy_pair]
      rw [if_neg (by exact not_le.mpr h)]
      simp only [List.head?, Option.map_some']
      rw [mkClassificationResult, if_neg]
      · rfl
      · push_neg
        constructor
        · positivity
        · rw [div_le_one (by norm_num)]; exact h2le
    · simp only []; positivity
    · simp only []
      rw [div_le_one (by norm_num)]; exact h2le
    · intro s hs
      simp only [Option.some.injEq] at hs
      rw [← hs, hsA, hsL]
      exact le_of_lt h

/-- Witness for C1 at a concrete one-trait profile. -/
theorem C1_classify_confidence_and_order_witness :
    ∃ r, classify [("Extraversion", (80 : ℚ))] = Except.ok r ∧
      0 ≤ r.confidence ∧ r.confidence ≤ 1 ∧
      ∀ s, r.secondary_archetype = some s →
        scoreAgainst [("Extraversion", 80)] s ≤
          scoreAgainst [("Extraversion", 80)] r.primary_archetype :=
  C1_classify_confidence_and_order [("Extraversion", 80)]

/-- C2: for a non-empty pattern the match score equals max(0, 100 minus
the mean absolute difference over the pattern traits present in the
profile) with absent traits skipped, and the empty profile scores 0
against every pattern. -/
theorem C2_pattern_match_formula :
    (∀ (profile : TraitProfile) (pattern : List (String × ℚ)), pattern ≠ [] →
        calculate_pattern_match profile pattern = matchScoreSpec profile pattern) ∧
    (∀ pattern : List (String × ℚ), calculate_pattern_match [] pattern = 0) := by
  constructor
  · exact calculate_pattern_match_eq_spec
  · intro pattern
    rw [calculate_pattern_match_eq]
    have hd : presentDiffs [] pattern = [] := by
      simp [presentDiffs, get_score]
    simp [hd]

/-- Witness for C2 at a concrete profile and the non-empty LEADER
pattern. -/
theorem C2_pattern_match_formula_witness :
    leader_pattern ≠ [] ∧
    calculate_pattern_match [("Extraversion", (90 : ℚ))] leader_pattern =
      matchScoreSpec [("Extraversion", 90)] leader_pattern :=
  ⟨by decide, C2_pattern_match_formula.1 [("Extraversion", 90)] leader_pattern
    (by decide)⟩

/-- C3: add_score fails with the range error exactly when the score is
outside [0,100]; for in-range scores (boundaries included) it succeeds
and stores the score under the trait name. -/
theorem C3_add_score_range (p : TraitProfile) (name : String) (s : ℚ) :
    (s < 0 ∨ 100 < s → add_score p name s =
        Except.error "Trait score must be between 0 and 100") ∧
    (0 ≤ s → s ≤ 100 →
      add_score p name s = Except.ok (setScore p name s) ∧
      get_score (setScore p name s) name = some s) := by
  constructor
  · intro h
    rw [add_score, if_pos h]
  · intro h0 h100
    constructor
    · rw [add_score, if_neg]
      push_neg
      exact ⟨h0, h100⟩
    · exact get_score_setScore p name s

/-- Witness for C3: score 101 is rejected, boundary score 100 is
accepted and stored. -/
theorem C3_add_score_range_witness :
    add_score [] "Confidence" (101 : ℚ) =
      Except.error "Trait score must be between 0 and 100" ∧
    add_score [] "Confidence" (100 : ℚ) = Except.ok [("Confidence", 100)] ∧
    get_score [("Confidence", (100 : ℚ))] "Confidence" = some 100 := by
  refine ⟨?_, ?_, ?_⟩
  · exact (C3_add_score_range [] "Confidence" 101).1 (Or.inr (by norm_num))
  · have h := ((C3_add_score_range [] "Confidence" 100).2
      (by norm_num) (by norm_num)).1
    simpa [setScore] using h
  · have h := ((C3_add_score_range [] "Confidence" 100).2
      (by norm_num) (by norm_num)).2
    simpa [setScore] using h

/-- C4 counterexample: the full compatibility result records the
argument order in its type1/type2 fields, so the result for
(INTJ, INTP) is not equal to the result for (INTP, INTJ). -/
theorem C4_compatibility_counterexample :
    assess_type_compatibility MBTIType.INTJ MBTIType.INTP ≠
      assess_type_compatibility MBTIType.INTP MBTIType.INTJ := by
  decide

/-- C4 (amended): for every pair of MBTI types the compatible flag and
the compatibility score are symmetric in the two arguments; the flag is
true exactly when the auxiliary function of one profile equals the
dominant function of the other, and the score is 75 when compatible and
50 otherwise. -/
theorem C4_compatibility_amended :
    ∀ t1 t2 : MBTIType,
      compat_verdict t1 t2 = compat_verdict t2 t1 ∧
      ((compat_verdict t1 t2).1 = true ↔
        (aux_of t1 = dom_of t2 ∨ aux_of t2 = dom_of t1)) ∧
      (compat_verdict t1 t2).2 =
        (if (compat_verdict t1 t2).1 then 75 else 50) := by
  decide

/-- C7: the INTJ profile is exactly the stack Ni, Te, Fi, Se in
dominant, auxiliary, tertiary, inferior order; the static table covers
all 16 canonical MBTI codes, and a code not in the table yields None. -/
theorem C7_jungian_profile_table :
    get_jungian_profile_by_code "INTJ" =
      some ⟨MBTIType.INTJ, JungianFunction.INTROVERTED_INTUITION,
        JungianFunction.EXTRAVERTED_THINKING,
        JungianFunction.INTROVERTED_FEELING,
        JungianFunction.EXTRAVERTED_SENSING⟩ ∧
    (∀ t : MBTIType, (get_jungian_profile t).isSome = true) ∧
    (∀ code : String, mbtiOfString code = none →
      get_jungian_profile_by_code code = none) := by
  refine ⟨by decide, by decide, ?_⟩
  intro code h
  simp [get_jungian_profile_by_code, h]

/-- Witness for C7: the unrecognized code XXXX misses the table and
yields None. -/
theorem C7_jungian_profile_table_witness :
    mbtiOfString "XXXX" = none ∧ get_jungian_profile_by_code "XXXX" = none := by
  refine ⟨by decide, ?_⟩
  exact C7_jungian_profile_table.2.2 "XXXX" (by decide)

theorem mkDefenseProfile_some {mi : DefenseMechanism × List String}
    {behaviors : List String} {p : DefenseProfile}
    (h : mkDefenseProfile mi behaviors = some p) :
    p = ⟨mi.1,
      min 1 (((behaviors.filter
        (fun b => mi.2.any (fun ind => strContains b ind))).length : ℚ) / 5),
      assess_adaptiveness mi.1
        (behaviors.filter (fun b => mi.2.any (fun ind => strContains b ind))),
      (behaviors.filter (fun b => mi.2.any (fun ind => strContains b ind))).take 3⟩ := by
  simp only [mkDefenseProfile] at h
  split at h
  · cases h
  · exact (Option.some.injEq _ _).mp h.symm

theorem assess_adaptiveness_cases (m : DefenseMechanism) (behaviors : List String) :
    assess_adaptiveness m behaviors =
      (if m = DefenseMechanism.SUBLIMATION ∨ m = DefenseMechanism.HUMOR ∨
          m = DefenseMechanism.INTELLECTUALIZATION then 8/10
       else if m = DefenseMechanism.DENIAL ∨ m = DefenseMechanism.PROJECTION
          then 3/10
       else 1/2) := by
  cases m <;> rfl

theorem identify_defenses_single :
    identify_defenses ["justifies behavior"] [] =
      [⟨DefenseMechanism.RATIONALIZATION, 1/5, 1/2, ["justifies behavior"]⟩] := by
  have hmin : min (1 : ℚ) (1/5) = 1/5 := by norm_num
  simp [identify_defenses, mechanism_indicators, mkDefenseProfile, sortDescBy,
    List.insertionSort, List.orderedInsert, assess_adaptiveness,
    adaptive_mechanisms, List.filter, List.any, hmin, strContains]
  norm_num

/-- C5: every returned defense profile has frequency
min(1, matches/5) for its mechanism's matching behaviors,
adaptiveness 0.8 for sublimation/humor/intellectualization, 0.3 for
denial/projection and 0.5 otherwise, and the returned list is sorted
descending by frequency; the empty behavior list yields the empty
list, and the single behavior justifies behavior yields a
RATIONALIZATION profile of frequency 1/5. -/
theorem C5_identify_defenses :
    (∀ (behaviors : List String) (s : StressResponses),
      (∀ p ∈ identify_defenses behaviors s,
        p.frequency =
          min 1 (((matching_behaviors p.mechanism behaviors).length : ℚ) / 5) ∧
        p.adaptiveness =
          (if p.mechanism = DefenseMechanism.SUBLIMATION ∨
              p.mechanism = DefenseMechanism.HUMOR ∨
              p.mechanism = DefenseMechanism.INTELLECTUALIZATION then 8/10
           else if p.mechanism = DefenseMechanism.DENIAL ∨
              p.mechanism = DefenseMechanism.PROJECTION then 3/10
           else 1/2)) ∧
      (identify_defenses behaviors s).Pairwise
        (fun p q => q.frequency ≤ p.frequency)) ∧
    (∀ s : StressResponses, identify_defenses [] s = []) ∧
    (∃ p ∈ identify_defenses ["justifies behavior"] [],
      p.mechanism = DefenseMechanism.RATIONALIZATION ∧ p.frequency = 1/5) := by
  refine ⟨?_, ?_, ?_⟩
  · intro behaviors s
    constructor
    · intro p hp
      rw [identify_defenses, mem_sortDescBy] at hp
      rcases List.mem_filterMap.mp hp with ⟨mi, hmi, hsome⟩
      have hpe := mkDefenseProfile_some hsome
      subst hpe
      simp only [mechanism_indicators, List.mem_cons, List.not_mem_nil,
        or_false] at hmi
      rcases hmi with h | h | h | h <;> subst h <;>
        exact ⟨rfl, by simpa using assess_adaptiveness_cases _ _⟩
    · exact sortDescBy_pairwise _ _
  · intro s
    rfl
  · refine ⟨⟨DefenseMechanism.RATIONALIZATION, 1/5, 1/2, ["justifies behavior"]⟩,
      ?_, rfl, rfl⟩
    rw [identify_defenses_single]
    exact List.mem_singleton_self _

/-- Witness for C5: the RATIONALIZATION profile produced for the
behavior justifies behavior is in the output with frequency
min(1, 1/5) and neutral adaptiveness 1/2. -/
theorem C5_identify_defenses_witness :
    (⟨DefenseMechanism.RATIONALIZATION, 1/5, 1/2, ["justifies behavior"]⟩ :
        DefenseProfile) ∈ identify_defenses ["justifies behavior"] [] ∧
    ((⟨DefenseMechanism.RATIONALIZATION, 1/5, 1/2, ["justifies behavior"]⟩ :
        DefenseProfile).frequency =
      min 1 (((matching_behaviors DefenseMechanism.RATIONALIZATION
        ["justifies behavior"]).length : ℚ) / 5)) := by
  have hmem : (⟨DefenseMechanism.RATIONALIZATION, 1/5, 1/2,
      ["justifies behavior"]⟩ : DefenseProfile) ∈
      identify_defenses ["justifies behavior"] [] := by
    rw [identify_defenses_single]
    exact List.mem_singleton_self _
  exact ⟨hmem,
    ((C5_identify_defenses.1 ["justifies behavior"] []).1 _ hmem).1⟩

/-- C10: identify_defenses never reads its stress_responses argument,
so its output is identical for any two response dicts. -/
theorem C10_stress_responses_noninterference :
    ∀ (behaviors : List String) (s1 s2 : StressResponses),
      identify_defenses behaviors s1 = identify_defenses behaviors s2 := by
  intro behaviors s1 s2
  rfl

theorem alookup_bump {α : Type} [DecidableEq α] (m : List (α × ℕ)) (a b : α) :
    alookup (bump m a) b =
      if b = a then some (lookupCount m a + 1) else alookup m b := by
  induction m with
  | nil =>
      by_cases h : b = a
      · subst h; simp [bump, alookup, lookupCount]
      · have h2 : ¬ (a = b) := fun hh => h hh.symm
        simp [bump, alookup, lookupCount, h, h2]
  | cons hd tl ih =>
      obtain ⟨k, c⟩ := hd
      by_cases hk : k = a
      · subst hk
        by_cases hb : k = b
        · subst hb; simp [bump, alookup, lookupCount]
        · have h2 : ¬ (b = k) := fun hh => hb hh.symm
          simp [bump, alookup, lookupCount, hb, h2]
      · by_cases hb : k = b
        · subst hb
          have h2 : ¬ (k = a) := hk
          simp [bump, alookup, hk, h2]
        · simp [bump, alookup, hk, hb, ih, lookupCount]

theorem lookupCount_countFold {α : Type} [DecidableEq α] (l : List α) :
    ∀ (acc : List (α × ℕ)) (a : α),
      lookupCount (countFold l acc) a =
        lookupCount acc a + l.countP (fun x => decide (x = a)) := by
  induction l with
  | nil => intro acc a; simp [countFold]
  | cons hd tl ih =>
      intro acc a
      have h1 : countFold (hd :: tl) acc = countFold tl (bump acc hd) := rfl
      rw [h1, ih]
      rw [lookupCount, alookup_bump]
      by_cases h : a = hd
      · subst h
        simp [List.countP_cons, lookupCount]
        omega
      · have h2 : ¬ (hd = a) := fun hh => h hh.symm
        simp [h, List.countP_cons, h2, lookupCount]

theorem mem_map_fst_bump {α : Type} [DecidableEq α] (m : List (α × ℕ))
    (a b : α) :
    b ∈ (bump m a).map Prod.fst ↔ b ∈ m.map Prod.fst ∨ b = a := by
  induction m with
  | nil => simp [bump]
  | cons hd tl ih =>
      obtain ⟨k, c⟩ := hd
      by_cases hk : k = a
      · subst hk
        simp [bump]
        tauto
      · simp [bump, hk, ih]
        tauto

theorem nodup_map_fst_bump {α : Type} [DecidableEq α] (m : List (α × ℕ))
    (a : α) (h : (m.map Prod.fst).Nodup) : ((bump m a).map Prod.fst).Nodup := by
  induction m with
  | nil => simp [bump]
  | cons hd tl ih =>
      obtain ⟨k, c⟩ := hd
      simp only [List.map_cons, List.nodup_cons] at h
      by_cases hk : k = a
      · subst hk
        have hb : bump ((k, c) :: tl) k = (k, c + 1) :: tl := by
          simp [bump]
        rw [hb]
        simp only [List.map_cons, List.nodup_cons]
        exact h
      · simp only [bump, if_neg hk, List.map_cons, List.nodup_cons]
        refine ⟨?_, ih h.2⟩
        intro hmem
        rcases (mem_map_fst_bump tl a k).mp hmem with hm | he
        · exact h.1 hm
        · exact hk he

theorem mem_map_fst_countFold {α : Type} [DecidableEq α] (l : List α) :
    ∀ (acc : List (α × ℕ)) (b : α),
      b ∈ (countFold l acc).map Prod.fst ↔ b ∈ acc.map Prod.fst ∨ b ∈ l := by
  induction l with
  | nil => intro acc b; simp [countFold]
  | cons hd tl ih =>
      intro acc b
      have h1 : countFold (hd :: tl) acc = countFold tl (bump acc hd) := rfl
      rw [h1, ih, mem_map_fst_bump]
      simp [List.mem_cons]
      tauto

theorem nodup_map_fst_countFold {α : Type} [DecidableEq α] (l : List α) :
    ∀ acc : List (α × ℕ), (acc.map Prod.fst).Nodup →
      ((countFold l acc).map Prod.fst).Nodup := by
  induction l with
  | nil => intro acc h; exact h
  | cons hd tl ih =>
      intro acc h
      exact ih (bump acc hd) (nodup_map_fst_bump acc hd h)

theorem alookup_eq_some_of_mem_nodup {α β : Type} [DecidableEq α]
    {m : List (α × β)} (hnd : (m.map Prod.fst).Nodup) {a : α} {b : β}
    (h : (a, b) ∈ m) : alookup m a = some b := by
  induction m with
  | nil => cases h
  | cons hd tl ih =>
      obtain ⟨k, v⟩ := hd
      simp only [List.map_cons, List.nodup_cons] at hnd
      rcases List.mem_cons.mp h with he | ht
      · injection he with h1 h2
        subst h1
        subst h2
        simp [alookup]
      · have hka : ¬ (k = a) := by
          intro hka
          subst hka
          exact hnd.1 (List.mem_map.mpr ⟨(k, b), ht, rfl⟩)
        simp [alookup, hka, ih hnd.2 ht]

theorem mem_of_alookup_eq_some {α β : Type} [DecidableEq α]
    {m : List (α × β)} {a : α} {b : β} (h : alookup m a = some b) :
    (a, b) ∈ m := by
  induction m with
  | nil => cases h
  | cons hd tl ih =>
      obtain ⟨k, v⟩ := hd
      by_cases hk : k = a
      · subst hk
        have ha : alookup ((k, v) :: tl) k = some v := by simp [alookup]
        rw [ha, Option.some.injEq] at h
        subst h
        exact List.mem_cons_self _ _
      · simp only [alookup, if_neg hk] at h
        exact List.mem_cons_of_mem _ (ih h)

theorem mbti_distribution_length (members : List String) :
    (mbti_distribution members).length = members.dedup.length := by
  have hnd : ((mbti_distribution members).map Prod.fst).Nodup :=
    nodup_map_fst_countFold members [] (by simp)
  have hmem : ∀ b, b ∈ (mbti_distribution members).map Prod.fst ↔ b ∈ members := by
    intro b
    rw [mbti_distribution, mem_map_fst_countFold]
    simp
  have hfin : ((mbti_distribution members).map Prod.fst).toFinset =
      members.toFinset := by
    ext x
    simp only [List.mem_toFinset]
    exact hmem x
  calc (mbti_distribution members).length
      = ((mbti_distribution members).map Prod.fst).length := by
        rw [List.length_map]
    _ = ((mbti_distribution members).map Prod.fst).dedup.length := by
        rw [hnd.dedup]
    _ = ((mbti_distribution members).map Prod.fst).toFinset.card :=
        (List.card_toFinset _).symm
    _ = members.toFinset.card := by rw [hfin]
    _ = members.dedup.length := List.card_toFinset _

/-- C6: the diversity score is the number of distinct MBTI types over
the team size (0 for an empty team), so 4 distinct types among 4
members score 1 and a single shared type scores 1/4; the balance label
buckets are strict, with boundary values falling to the lower bucket. -/
theorem C6_team_diversity :
    (∀ members : List String, diversity_score members =
        if members = [] then 0
        else ((members.dedup.length : ℚ) / (members.length : ℚ))) ∧
    diversity_score ["INTJ", "ENFP", "ISTJ", "ESFJ"] = 1 ∧
    diversity_score ["INTJ", "INTJ", "INTJ", "INTJ"] = 1/4 ∧
    (∀ d : ℚ, 4/5 < d → balance_label d = "Highly Balanced") ∧
    (∀ d : ℚ, 3/5 < d → d ≤ 4/5 → balance_label d = "Balanced") ∧
    (∀ d : ℚ, 2/5 < d → d ≤ 3/5 → balance_label d = "Moderately Balanced") ∧
    (∀ d : ℚ, d ≤ 2/5 → balance_label d = "Homogeneous") := by
  have hgen : ∀ members : List String, diversity_score members =
      if members = [] then 0
      else ((members.dedup.length : ℚ) / (members.length : ℚ)) := by
    intro members
    rw [diversity_score, mbti_distribution_length]
    simp [List.isEmpty_iff]
  refine ⟨hgen, ?_, ?_, ?_, ?_, ?_, ?_⟩
  · have h4 : (mbti_distribution ["INTJ", "ENFP", "ISTJ", "ESFJ"]).length = 4 := by
      decide
    rw [diversity_score]
    rw [h4]
    norm_num
  · have h1 : (mbti_distribution ["INTJ", "INTJ", "INTJ", "INTJ"]).length = 1 := by
      decide
    rw [diversity_score]
    rw [h1]
    norm_num
  · intro d h
    rw [balance_label, if_pos h]
  · intro d h1 h2
    rw [balance_label, if_neg (by linarith), if_pos h1]
  · intro d h1 h2
    rw [balance_label, if_neg (by linarith), if_neg (by linarith), if_pos h1]
  · intro d h
    rw [balance_label, if_neg (by linarith), if_neg (by linarith),
      if_neg (by linarith)]

/-- Witness for C6: one representative diversity in each balance
bucket, with the boundary value 3/5 falling to the lower bucket. -/
theorem C6_team_diversity_witness :
    balance_label (9/10) = "Highly Balanced" ∧
    balance_label (7/10) = "Balanced" ∧
    balance_label (3/5) = "Moderately Balanced" ∧
    balance_label (2/5) = "Homogeneous" :=
  ⟨C6_team_diversity.2.2.2.1 (9/10) (by norm_num),
   C6_team_diversity.2.2.2.2.1 (7/10) (by norm_num) (by norm_num),
   C6_team_diversity.2.2.2.2.2.1 (3/5) (by norm_num) (by norm_num),
   C6_team_diversity.2.2.2.2.2.2 (2/5) (by norm_num)⟩

theorem inner_fold_eq (ps : List ArchetypalPattern) :
    ∀ acc : List (Archetype × ℕ),
      ps.foldl
        (fun acc2 p => if p.is_dominant then bump acc2 p.archetype else acc2)
        acc =
      countFold ((ps.filter (fun p => p.is_dominant)).map (fun p => p.archetype))
        acc := by
  induction ps with
  | nil => intro acc; rfl
  | cons p ps ih =>
      intro acc
      by_cases hd : p.is_dominant = true
      · rw [List.foldl_cons, if_pos hd, ih, List.filter_cons, if_pos hd,
          List.map_cons]
        rfl
      · rw [List.foldl_cons, if_neg hd, ih, List.filter_cons, if_neg hd]

theorem archetypeCounts_eq (group : List (List ArchetypalPattern)) :
    archetypeCounts group =
      countFold ((group.flatten.filter (fun p => p.is_dominant)).map
        (fun p => p.archetype)) [] := by
  suffices h : ∀ acc : List (Archetype × ℕ),
      group.foldl
        (fun acc patterns =>
          patterns.foldl
            (fun acc2 p => if p.is_dominant then bump acc2 p.archetype else acc2)
            acc)
        acc =
      countFold ((group.flatten.filter (fun p => p.is_dominant)).map
        (fun p => p.archetype)) acc by
    exact h []
  induction group with
  | nil => intro acc; rfl
  | cons ps rest ih =>
      intro acc
      rw [List.foldl_cons, ih, inner_fold_eq, List.flatten_cons,
        List.filter_append, List.map_append]
      rw [countFold, countFold, countFold, List.foldl_append]

theorem lookupCount_archetypeCounts (group : List (List ArchetypalPattern))
    (a : Archetype) :
    lookupCount (archetypeCounts group) a = dominantOccurrences group a := by
  rw [archetypeCounts_eq, lookupCount_countFold]
  simp [lookupCount, alookup, dominantOccurrences]

theorem archetypeCounts_nodup (group : List (List ArchetypalPattern)) :
    ((archetypeCounts group).map Prod.fst).Nodup := by
  rw [archetypeCounts_eq]
  exact nodup_map_fst_countFold _ [] (by simp)

theorem mem_archetypeCounts_keys (group : List (List ArchetypalPattern))
    (a : Archetype) :
    a ∈ (archetypeCounts group).map Prod.fst ↔
      0 < dominantOccurrences group a := by
  rw [archetypeCounts_eq, mem_map_fst_countFold]
  simp only [List.map_nil, List.not_mem_nil, false_or]
  rw [dominantOccurrences]
  constructor
  · intro h
    exact List.countP_pos_iff.mpr ⟨a, h, by simp⟩
  · intro h
    rcases List.countP_pos_iff.mp h with ⟨x, hx, hpx⟩
    have hxa : x = a := by simpa using hpx
    rw [← hxa]
    exact hx

theorem mem_archetypeCounts_iff (group : List (List ArchetypalPattern))
    (a : Archetype) (n : ℕ) :
    (a, n) ∈ archetypeCounts group ↔
      0 < dominantOccurrences group a ∧ n = dominantOccurrences group a := by
  constructor
  · intro h
    have hl := alookup_eq_some_of_mem_nodup (archetypeCounts_nodup group) h
    have hn : lookupCount (archetypeCounts group) a = n := by
      rw [lookupCount, hl]
      rfl
    rw [lookupCount_archetypeCounts] at hn
    have hk : a ∈ (archetypeCounts group).map Prod.fst :=
      List.mem_map.mpr ⟨(a, n), h, rfl⟩
    rw [mem_archetypeCounts_keys] at hk
    exact ⟨hk, hn.symm⟩
  · rintro ⟨hpos, rfl⟩
    have hk : a ∈ (archetypeCounts group).map Prod.fst :=
      (mem_archetypeCounts_keys group a).mpr hpos
    rcases List.mem_map.mp hk with ⟨⟨a2, n2⟩, hmem, hfst⟩
    simp only at hfst
    subst hfst
    have hl := alookup_eq_some_of_mem_nodup (archetypeCounts_nodup group) hmem
    have hn : lookupCount (archetypeCounts group) a2 = n2 := by
      rw [lookupCount, hl]
      rfl
    rw [lookupCount_archetypeCounts] at hn
    rw [hn]
    exact hmem

theorem foldl_pick_spec {α : Type} (xs : List (α × ℕ)) :
    ∀ x0 : α × ℕ,
      (xs.foldl (fun best y => if y.2 > best.2 then y else best) x0) ∈ x0 :: xs ∧
      x0.2 ≤ (xs.foldl (fun best y => if y.2 > best.2 then y else best) x0).2 ∧
      ∀ y ∈ xs,
        y.2 ≤ (xs.foldl (fun best y => if y.2 > best.2 then y else best) x0).2 := by
  induction xs with
  | nil => intro x0; simp
  | cons z zs ih =>
      intro x0
      by_cases hz : x0.2 < z.2
      · rw [List.foldl_cons, if_pos hz]
        obtain ⟨hmem, hle, hall⟩ := ih z
        refine ⟨List.mem_cons_of_mem _ hmem, le_trans (le_of_lt hz) hle, ?_⟩
        intro y hy
        rcases List.mem_cons.mp hy with he | ht
        · rw [he]; exact hle
        · exact hall y ht
      · rw [List.foldl_cons, if_neg hz]
        obtain ⟨hmem, hle, hall⟩ := ih x0
        push_neg at hz
        refine ⟨?_, hle, ?_⟩
        · rcases List.mem_cons.mp hmem with he | ht
          · rw [he]; exact List.mem_cons_self _ _
          · exact List.mem_cons_of_mem _ (List.mem_cons_of_mem _ ht)
        · intro y hy
          rcases List.mem_cons.mp hy with he | ht
          · rw [he]; exact le_trans hz hle
          · exact hall y ht

theorem maxByCount_spec {α : Type} {l : List (α × ℕ)} {x : α × ℕ}
    (h : maxByCount l = some x) : x ∈ l ∧ ∀ y ∈ l, y.2 ≤ x.2 := by
  cases l with
  | nil => cases h
  | cons z zs =>
      rw [maxByCount, Option.some.injEq] at h
      obtain ⟨hmem, hle, hall⟩ := foldl_pick_spec zs z
      constructor
      · rw [← h]; exact hmem
      · intro y hy
        rcases List.mem_cons.mp hy with he | ht
        · rw [he, ← h]; exact hle
        · rw [← h]; exact hall y ht

theorem maxByCount_eq_none {α : Type} (l : List (α × ℕ)) :
    maxByCount l = none ↔ l = [] := by
  cases l <;> simp [maxByCount]

theorem heroPattern_dominant : heroPattern.is_dominant = true := by
  rw [ArchetypalPattern.is_dominant, decide_eq_true_eq]
  norm_num [heroPattern]

theorem c8Group_counts : archetypeCounts c8Group = [(Archetype.HERO, 2)] := by
  simp [archetypeCounts, c8Group, heroPattern_dominant, bump,
    show heroPattern.archetype = Archetype.HERO from rfl]

/-- C8 counterexample: in a 4-member group whose first member has two
dominant HERO patterns, HERO is reported in collective_archetypes (the
code counts 2 pattern occurrences, 2/4 is above 30 percent) although
only 1 of the 4 individuals has HERO as dominant and 1/4 is not above
30 percent, so the claimed membership condition fails. -/
theorem C8_collective_counterexample :
    (∃ q : ℚ, (Archetype.HERO, q) ∈
        (assess_collective_unconscious_patterns c8Group).collective_archetypes) ∧
    ¬ (((claimIndividualCount c8Group Archetype.HERO : ℚ) /
        ((c8Group.length : ℕ) : ℚ)) > 3/10) := by
  constructor
  · refine ⟨(((2:ℕ) : ℚ)) / ((c8Group.length : ℕ) : ℚ), ?_⟩
    have hfield : (assess_collective_unconscious_patterns c8Group).collective_archetypes =
        ((archetypeCounts c8Group).filter
          (fun ac => decide (((ac.2 : ℚ) / ((c8Group.length : ℕ) : ℚ)) > 3/10))).map
          (fun ac => (ac.1, (ac.2 : ℚ) / ((c8Group.length : ℕ) : ℚ))) := rfl
    rw [hfield]
    refine List.mem_map.mpr ⟨(Archetype.HERO, 2), ?_, rfl⟩
    refine List.mem_filter.mpr ⟨?_, ?_⟩
    · rw [c8Group_counts]
      exact List.mem_cons_self _ _
    · rw [decide_eq_true_eq]
      have hlen : c8Group.length = 4 := rfl
      rw [hlen]
      norm_num
  · have hcic : claimIndividualCount c8Group Archetype.HERO = 1 := by
      simp [claimIndividualCount, c8Group, heroPattern_dominant,
        show heroPattern.archetype = Archetype.HERO from rfl]
    have hlen : c8Group.length = 4 := rfl
    rw [hcic, hlen]
    norm_num

/-- C8 (amended): the code counts dominant pattern occurrences, not
individuals; an archetype appears in collective_archetypes with value
count/size exactly when its occurrence count divided by the group size
is strictly above 0.3, dominant_pattern is None exactly when no
dominant pattern occurs, and when it is some value string it names an
archetype whose occurrence count is positive and maximal. -/
theorem C8_collective_patterns_amended (group : List (List ArchetypalPattern)) :
    (∀ (a : Archetype) (q : ℚ),
      (a, q) ∈ (assess_collective_unconscious_patterns group).collective_archetypes ↔
        (((dominantOccurrences group a : ℚ) / ((group.length : ℕ) : ℚ)) > 3/10 ∧
         q = (dominantOccurrences group a : ℚ) / ((group.length : ℕ) : ℚ))) ∧
    ((assess_collective_unconscious_patterns group).dominant_pattern = none ↔
      ∀ a : Archetype, dominantOccurrences group a = 0) ∧
    (∀ s : String,
      (assess_collective_unconscious_patterns group).dominant_pattern = some s →
      ∃ a : Archetype, s = a.value ∧ 0 < dominantOccurrences group a ∧
        ∀ b : Archetype, dominantOccurrences group b ≤ dominantOccurrences group a) := by
  have hfield : (assess_collective_unconscious_patterns group).collective_archetypes =
      ((archetypeCounts group).filter
        (fun ac => decide (((ac.2 : ℚ) / ((group.length : ℕ) : ℚ)) > 3/10))).map
        (fun ac => (ac.1, (ac.2 : ℚ) / ((group.length : ℕ) : ℚ))) := rfl
  have hdp : (assess_collective_unconscious_patterns group).dominant_pattern =
      (maxByCount (archetypeCounts group)).map (fun x => Archetype.value x.1) := rfl
  refine ⟨?_, ?_, ?_⟩
  · intro a q
    rw [hfield]
    constructor
    · intro h
      rcases List.mem_map.mp h with ⟨ac, hmemf, heq⟩
      rcases List.mem_filter.mp hmemf with ⟨hmem, hcond⟩
      obtain ⟨a2, n2⟩ := ac
      injection heq with h1 h2
      subst h1
      obtain ⟨-, hocc⟩ := (mem_archetypeCounts_iff group a2 n2).mp hmem
      subst hocc
      rw [decide_eq_true_eq] at hcond
      exact ⟨hcond, h2.symm⟩
    · rintro ⟨hcond, rfl⟩
      have hpos : 0 < dominantOccurrences group a := by
        rcases Nat.eq_zero_or_pos (dominantOccurrences group a) with hzero | hp
        · rw [hzero] at hcond
          norm_num at hcond
        · exact hp
      refine List.mem_map.mpr ⟨(a, dominantOccurrences group a), ?_, rfl⟩
      refine List.mem_filter.mpr ⟨?_, ?_⟩
      · exact (mem_archetypeCounts_iff group a _).mpr ⟨hpos, rfl⟩
      · rw [decide_eq_true_eq]
        exact hcond
  · rw [hdp, Option.map_eq_none', maxByCount_eq_none]
    constructor
    · intro h a
      have := lookupCount_archetypeCounts group a
      rw [h] at this
      simpa [lookupCount, alookup] using this.symm
    · intro h
      rcases hC : archetypeCounts group with _ | ⟨⟨a, n⟩, rest⟩
      · rfl
      · exfalso
        have hmem : (a, n) ∈ archetypeCounts group := by
          rw [hC]
          exact List.mem_cons_self _ _
        obtain ⟨hpos, -⟩ := (mem_archetypeCounts_iff group a n).mp hmem
        rw [h a] at hpos
        exact Nat.lt_irrefl 0 hpos
  · intro s hs
    rw [hdp] at hs
    rcases Option.map_eq_some'.mp hs with ⟨x, hmax, hval⟩
    obtain ⟨a0, n0⟩ := x
    obtain ⟨hmem, hall⟩ := maxByCount_spec hmax
    obtain ⟨hpos, hocc⟩ := (mem_archetypeCounts_iff group a0 n0).mp hmem
    refine ⟨a0, hval.symm, hpos, ?_⟩
    intro b
    rcases Nat.eq_zero_or_pos (dominantOccurrences group b) with hb | hb
    · rw [hb]
      exact Nat.zero_le _
    · have hmb : (b, dominantOccurrences group b) ∈ archetypeCounts group :=
        (mem_archetypeCounts_iff group b _).mpr ⟨hb, rfl⟩
      have := hall _ hmb
      simpa [← hocc] using this

/-- Witness for C8 (amended): applied to the concrete group whose
dominant_pattern evaluates to some hero string. -/
theorem C8_collective_patterns_amended_witness :
    ∃ a : Archetype, "hero" = a.value ∧ 0 < dominantOccurrences c8Group a ∧
      ∀ b : Archetype,
        dominantOccurrences c8Group b ≤ dominantOccurrences c8Group a := by
  refine (C8_collective_patterns_amended c8Group).2.2 "hero" ?_
  have hdp : (assess_collective_unconscious_patterns c8Group).dominant_pattern =
      (maxByCount (archetypeCounts c8Group)).map (fun x => Archetype.value x.1) := rfl
  rw [hdp, c8Group_counts]
  rfl

theorem calculate_similarity_nonneg (p1 p2 : List (String × PyVal)) :
    0 ≤ calculate_similarity p1 p2 := by
  simp only [calculate_similarity]
  split
  · exact le_refl 0
  · positivity

theorem calculate_similarity_le_one (p1 p2 : List (String × PyVal)) :
    calculate_similarity p1 p2 ≤ 1 := by
  simp only [calculate_similarity]
  set common := ((p1.map Prod.fst).dedup).filter (fun k => (alookup p2 k).isSome)
    with hc
  split
  · norm_num
  · rename_i h
    have hlen0 : common ≠ [] := by
      simpa [List.isEmpty_iff] using h
    have hlen : (0 : ℚ) < (common.length : ℚ) := by
      exact_mod_cast List.length_pos.mpr hlen0
    rw [div_le_one hlen]
    exact_mod_cast List.countP_le_length _

/-- C9 counterexample: with the negative limit -1 the Python slice
keeps all but the last scored case, returning 5 cases, which is not at
most -1, so the claim fails for that limit. -/
theorem C9_find_similar_counterexample :
    (find_similar_cases [] (-1)).length = 5 ∧
    ¬ (((find_similar_cases [] (-1)).length : ℤ) ≤ -1) := by
  have h : (find_similar_cases [] (-1)).length = 5 := by decide
  refine ⟨h, ?_⟩
  rw [h]
  decide

/-- C9 (amended): for every profile and every non-negative limit, each
stored case's similarity score lies in [0,1], at most limit cases are
returned, they are sorted descending by similarity, and every returned
case scores at least as high as every stored case left out. -/
theorem C9_find_similar_amended (profile : List (String × PyVal)) (limit : ℤ)
    (hl : 0 ≤ limit) :
    (∀ c ∈ case_database, 0 ≤ calculate_similarity profile c.subject_profile ∧
        calculate_similarity profile c.subject_profile ≤ 1) ∧
    ((find_similar_cases profile limit).length : ℤ) ≤ limit ∧
    (find_similar_cases profile limit).Pairwise
      (fun c d => calculate_similarity profile d.subject_profile ≤
        calculate_similarity profile c.subject_profile) ∧
    (∀ c ∈ find_similar_cases profile limit, ∀ d ∈ case_database,
      d ∉ find_similar_cases profile limit →
      calculate_similarity profile d.subject_profile ≤
        calculate_similarity profile c.subject_profile) := by
  set scored := case_database.map
    (fun c => (calculate_similarity profile c.subject_profile, c)) with hscored
  set sorted := sortDescBy Prod.fst scored with hsorted
  have hres : find_similar_cases profile limit =
      (pyTake limit sorted).map Prod.snd := rfl
  have hptake : pyTake limit sorted = sorted.take limit.toNat := by
    rw [pyTake, if_pos hl]
  have hinv : ∀ x ∈ sorted,
      x.1 = calculate_similarity profile x.2.subject_profile := by
    intro x hx
    have hx2 : x ∈ scored := mem_sortDescBy.mp hx
    rcases List.mem_map.mp hx2 with ⟨c, hc, rfl⟩
    rfl
  have hpw : sorted.Pairwise (fun x y => y.1 ≤ x.1) :=
    sortDescBy_pairwise Prod.fst scored
  have hpw2 : sorted.Pairwise
      (fun x y => calculate_similarity profile y.2.subject_profile ≤
        calculate_similarity profile x.2.subject_profile) := by
    refine hpw.imp_of_mem ?_
    intro a b ha hb hab
    rw [← hinv a ha, ← hinv b hb]
    exact hab
  refine ⟨?_, ?_, ?_, ?_⟩
  · intro c hc
    exact ⟨calculate_similarity_nonneg _ _, calculate_similarity_le_one _ _⟩
  · rw [hres, hptake, List.length_map]
    have hlen : (sorted.take limit.toNat).length ≤ limit.toNat := by
      rw [List.length_take]
      exact min_le_left _ _
    calc ((sorted.take limit.toNat).length : ℤ)
        ≤ (limit.toNat : ℤ) := by exact_mod_cast hlen
      _ = limit := Int.toNat_of_nonneg hl
  · rw [hres, hptake, List.pairwise_map]
    exact hpw2.sublist (List.take_sublist _ _)
  · intro c hc d hd hdnot
    rw [hres, hptake] at hc
    rcases List.mem_map.mp hc with ⟨x, hxtake, hxc⟩
    have hdsorted : (calculate_similarity profile d.subject_profile, d) ∈
        sorted :=
      mem_sortDescBy.mpr (List.mem_map.mpr ⟨d, hd, rfl⟩)
    have hdin : (calculate_similarity profile d.subject_profile, d) ∈
        sorted.take limit.toNat ∨
        (calculate_similarity profile d.subject_profile, d) ∈
        sorted.drop limit.toNat := by
      rw [← List.mem_append, List.take_append_drop]
      exact hdsorted
    rcases hdin with hin | hin
    · exact absurd
        (by
          rw [hres, hptake]
          exact List.mem_map.mpr ⟨_, hin, rfl⟩)
        hdnot
    · have hpw3 : (sorted.take limit.toNat ++ sorted.drop limit.toNat).Pairwise
          (fun x y => calculate_similarity profile y.2.subject_profile ≤
            calculate_similarity profile x.2.subject_profile) := by
        rw [List.take_append_drop]
        exact hpw2
      have hcross := (List.pairwise_append.mp hpw3).2.2 x hxtake _ hin
      rw [hxc] at hcross
      simpa using hcross

/-- Witness for C9 (amended) at the empty profile and limit 2. -/
theorem C9_find_similar_amended_witness :
    (∀ c ∈ case_database, 0 ≤ calculate_similarity [] c.subject_profile ∧
        calculate_similarity [] c.subject_profile ≤ 1) ∧
    ((find_similar_cases [] 2).length : ℤ) ≤ 2 ∧
    (find_similar_cases [] 2).Pairwise
      (fun c d => calculate_similarity [] d.subject_profile ≤
        calculate_similarity [] c.subject_profile) ∧
    (∀ c ∈ find_similar_cases [] 2, ∀ d ∈ case_database,
      d ∉ find_similar_cases [] 2 →
      calculate_similarity [] d.subject_profile ≤
        calculate_similarity [] c.subject_profile) :=
  C9_find_similar_amended [] 2 (by decide)

end TeamAlchemy
